import Mathlib

/-!
# TrafficManager pipeline executable: session lifecycle

Shallow embedding of `TrafficManager/source/pipeline/executable/PipelineExecutable.cpp`:
the process-wide variables `quit` and `global_actor_list`, the signal relay
`got_signal`, the terminate handler `handler`, argument processing in `main`
and the supervisor `run_pipeline`.

The program is embedded as a step machine on a process state `Proc`.  The main
thread advances by `Input.sup o`, where `o` is the outcome of the external
call(s) made by the stage it is in; `Input.sigint` is the delivery of SIGINT;
`Input.fault` is an unhandled fault on another thread, which makes the C++
runtime call the installed terminate handler.

Calls into code that is not part of this file (the carla client, `Pipeline`,
`spawn_traffic`, `destroy_traffic`) are parameters: their results are given by
`Env` and by the `Outcome` carried by each supervisor step.
-/

namespace TrafficManager

/-! ## Data model -/

/-- Identity of one remote actor. -/
abbrev ActorId := Nat

/-- An entry of the registry, a `carla::SharedPtr<cc::Actor>`: `none` is the
null pointer. -/
abbrev Actor := Option ActorId

/-- How a call made by the main thread ends: it returns, it raises
`cc::TimeoutException`, or it raises any other exception. -/
inductive Outcome where
  | ok
  | timeout
  | fault
  deriving DecidableEq, Repr

/-- Calls issued by the process, in the order they are issued. `loop_check b` is
the evaluation of the loop condition `!quit.load()` at line 155 with `quit = b`.
`IsAlive a b` and `Destroy a ok` are actor calls that returned `b` and `ok`;
`IsAlive_raised a` and `Destroy_raised a` are actor calls that raised. -/
inductive Event where
  | connect (host : String) (port : Nat) (o : Outcome)
  | build_map (o : Outcome)
  | spawn_traffic (target : Nat) (o : Outcome)
  | construct (o : Outcome)
  | Start (o : Outcome)
  | loop_check (b : Bool)
  | sleep
  | GetSettings (o : Outcome)
  | Stop (o : Outcome)
  | destroy_traffic (o : Outcome)
  | IsAlive (a : ActorId) (answer : Bool)
  | Destroy (a : ActorId) (success : Bool)
  | IsAlive_raised (a : ActorId)
  | Destroy_raised (a : ActorId)
  deriving DecidableEq, Repr

/-- Lines written through `carla::log_*` and `std::cout`. -/
inductive LogLine where
  | usage
  | parse_warning
  | problem
  | destroying
  | started
  | carla_stopped
  | stopped_by_user
  deriving DecidableEq, Repr

/-- Modelled from the spec: the interfaces of the external collaborators, whose
declarations (`cc::Actor`, `traffic_manager::spawn_traffic`,
`traffic_manager::destroy_traffic`) are outside this source file, over a
remote-world state `W`.
`IsAlive`/`Destroy` are the two `cc::Actor` methods used by `handler`. Each
either returns a flag (`some`) or raises an exception (`none`); `Destroy` is the
fallible remote call `destroy(handle) -> success|failure`, whose flag tells
success, and it also gives the new remote state. `spawn_traffic` and
`destroy_traffic` are the two `traffic_manager` helpers called by
`run_pipeline`, with the outcome of the call as last argument: what they leave
in the remote world may depend on whether they return or raise. -/
structure Env (W : Type) where
  IsAlive : W → ActorId → Option Bool
  Destroy : W → ActorId → Option Bool × W
  spawn_traffic : W → Nat → Outcome → List Actor × W
  destroy_traffic : W → List Actor → Outcome → W

/-! ## Argument processing (`main`, lines 58-93) -/

/-- The C `isspace` classes skipped by `strtol`. -/
def isspace (c : Char) : Bool :=
  c = ' ' || c = '\t' || c = '\n' || c = '\x0b' || c = '\x0c' || c = '\r'

/-- The C++ standard library `std::stoi` in base 10: leading white space, an
optional sign, then the longest run of digits. `none` stands for the
exceptions `std::invalid_argument` (no digits) and `std::out_of_range`
(value outside `int`). -/
def stoi (str : String) : Option Int :=
  let cs := str.toList.dropWhile isspace
  let neg := cs.head? = some '-'
  let body := if cs.head? = some '-' ∨ cs.head? = some '+' then cs.tail else cs
  let ds := body.takeWhile Char.isDigit
  let n : Nat := ds.foldl (fun acc c => 10 * acc + (c.toNat - '0'.toNat)) 0
  let v : Int := if neg then -(n : Int) else (n : Int)
  if ds = [] then none
  else if v < -2147483648 ∨ 2147483647 < v then none
  else some v

/-- Conversion of an `int` to `uint` (32 bits). -/
def to_uint (v : Int) : Nat := (v % 4294967296).toNat

/-- The locals of `main` written by argument processing, with the number of
`log_warning` calls made so far. -/
structure ArgState where
  randomization_seed : Int
  target_traffic_amount : Nat
  host : String
  port : Nat
  warnings : Nat
  deriving DecidableEq, Repr

/-- The initial values of the locals of `main`, lines 58-61. -/
def ArgState.default : ArgState :=
  { randomization_seed := -1, target_traffic_amount := 0, host := "localhost",
    port := 2000, warnings := 0 }

/-- The `for` loop of lines 63-93 over `argv[i..argc-1]`, given as a list.
A flag consumes the following element through `argv[++i]`; at the end of the
list that element is the null `argv[argc]`, and building a `std::string` from
it raises `std::logic_error`: inside the `try` blocks of `-n`, `-s`, `-p` this
is caught like a failed `std::stoi`, for `--host` (line 91) it is not caught
and the result is `Except.error` with the locals at that point. -/
def process_args : List String → ArgState → Except ArgState ArgState
  | [], st => .ok st
  | this_arg :: rest, st =>
    if this_arg = "-n" then
      match rest with
      | [] => .ok { st with warnings := st.warnings + 1 }
      | v :: rest2 =>
        match stoi v with
        | some n => process_args rest2 { st with target_traffic_amount := to_uint n }
        | none => process_args rest2 { st with warnings := st.warnings + 1 }
    else if this_arg = "-s" then
      match rest with
      | [] => .ok { st with warnings := st.warnings + 1 }
      | v :: rest2 =>
        match stoi v with
        | some n => process_args rest2 { st with randomization_seed := n }
        | none => process_args rest2 { st with warnings := st.warnings + 1 }
    else if this_arg = "-p" then
      match rest with
      | [] => .ok { st with warnings := st.warnings + 1 }
      | v :: rest2 =>
        match stoi v with
        | some n => process_args rest2 { st with port := to_uint n }
        | none => process_args rest2 { st with warnings := st.warnings + 1 }
    else if this_arg = "--host" then
      match rest with
      | [] => .error st
      | v :: rest2 => process_args rest2 { st with host := v }
    else process_args rest st

/-! ## Process state -/

/-- Program point of the main thread. Each point is one stage of `main` /
`run_pipeline`:
`args` lines 53-99, `connect` lines 101-104, `sigaction` lines 113-117,
`build_map` lines 119-128, `spawn` lines 129-131, `construct` lines 133-148,
`start` line 152, `loop_head` line 155, `poll` lines 156-158, `stop` line 166,
`reclaim` line 168, `finish` lines 170-171 and 107. -/
inductive Pc where
  | args
  | connect
  | sigaction
  | build_map
  | spawn
  | construct
  | start
  | loop_head
  | poll
  | stop
  | reclaim
  | finish
  deriving DecidableEq, Repr

/-- Whether the process is alive, and how it ended: `exited c` is `exit(c)` or
`main` returning `c`; `aborted` is `std::terminate` ending the process through
`abort()` after the terminate handler returned or raised; `crashed` is the terminate handler reading through
the null `global_actor_list`; `killed` is SIGINT with its default action. -/
inductive Status where
  | running (pc : Pc)
  | exited (code : Nat)
  | aborted
  | crashed
  | killed
  deriving DecidableEq, Repr

/-- The process: the two globals `quit` and `global_actor_list`, whether
`sigaction(SIGINT, got_signal)` has been executed, the command line, the locals
written by argument processing, the arguments `run_pipeline` was called with,
the remote world, and what has been issued and logged so far. -/
structure Proc (W : Type) where
  quit : Bool
  global_actor_list : Option (List Actor)
  sigint_relayed : Bool
  argv : List String
  cfg : ArgState
  run_pipeline_args : Option (Nat × Nat)
  world : W
  trace : List Event
  log : List LogLine
  status : Status

/-- State right after `std::set_terminate(handler)` (line 51): `quit(false)`,
`global_actor_list` zero-initialised, SIGINT still with its default action.
`argv` is `argv[1..argc-1]`. -/
def Proc.init {W : Type} (w : W) (argv : List String) : Proc W :=
  { quit := false, global_actor_list := none, sigint_relayed := false,
    argv := argv, cfg := ArgState.default, run_pipeline_args := none,
    world := w, trace := [], log := [], status := .running .args }

/-! ## Signal relay and terminate handler -/

/-- The signal relay `got_signal` of lines 27-29: `quit.store(true)` and nothing
else. -/
def got_signal {W : Type} (s : Proc W) (_signum : Int) : Proc W :=
  { s with quit := true }

/-- The loop of lines 38-42 over the registry, from remote state `w`: the new
remote state, the calls issued, and whether a call raised. A null entry is
skipped by the short-circuit `actor != nullptr &&`; the value returned by
`Destroy` is discarded. The loop has no `try`: an `IsAlive` or `Destroy` that
raises ends it at that entry, the exception leaving `handler`. -/
def destroy_loop {W : Type} (E : Env W) : List Actor → W → W × List Event × Bool
  | [], w => (w, [], false)
  | none :: rest, w => destroy_loop E rest w
  | some a :: rest, w =>
    match E.IsAlive w a with
    | none => (w, [Event.IsAlive_raised a], true)
    | some false =>
      let r := destroy_loop E rest w
      (r.1, Event.IsAlive a false :: r.2.1, r.2.2)
    | some true =>
      match (E.Destroy w a).1 with
      | none => ((E.Destroy w a).2, [Event.IsAlive a true, Event.Destroy_raised a], true)
      | some ok =>
        let r := destroy_loop E rest (E.Destroy w a).2
        (r.1, Event.IsAlive a true :: Event.Destroy a ok :: r.2.1, r.2.2)

/-- How a call of `handler` ends: it returns to the runtime, it calls
`exit(code)`, it dereferences the null `global_actor_list`, or an exception
raised by an actor call leaves it. -/
inductive HandlerExit where
  | returned
  | exit (code : Nat)
  | null_registry
  | raised
  deriving DecidableEq, Repr

/-- The terminate handler `handler` of lines 32-48. With `quit` set it does
nothing and returns. Otherwise it logs lines 36-37 and runs the loop over
`*global_actor_list`, which reads through a null pointer while the registry is
not published, and then calls `exit(1)`, unless an actor call raised. -/
def handler {W : Type} (E : Env W) (s : Proc W) : Proc W × HandlerExit :=
  if s.quit then (s, .returned)
  else
    match s.global_actor_list with
    | none =>
      ({ s with log := s.log ++ [LogLine.problem, LogLine.destroying] }, .null_registry)
    | some actors =>
      let r := destroy_loop E actors s.world
      ({ s with log := s.log ++ [LogLine.problem, LogLine.destroying], world := r.1,
                trace := s.trace ++ r.2.1 },
       if r.2.2 then .raised else .exit 1)

/-- What `std::terminate` does: call the installed handler; a handler that
returns, or that is left by an exception, is followed by `abort()`. -/
def terminate {W : Type} (E : Env W) (s : Proc W) : Proc W :=
  match handler E s with
  | (s1, .returned) => { s1 with status := .aborted }
  | (s1, .exit code) => { s1 with status := .exited code }
  | (s1, .null_registry) => { s1 with status := .crashed }
  | (s1, .raised) => { s1 with status := .aborted }

/-! ## The main thread -/

/-- Where an exception raised by the stage at `pc` goes: `some pc2` when a
`catch` clause of `run_pipeline` takes it and execution continues at `pc2`,
`none` when it leaves `main`. The only `catch` is the one of lines 161-164,
for `cc::TimeoutException`, around `pipeline.Start()` and the polling loop. -/
def caught (pc : Pc) (o : Outcome) : Option Pc :=
  match pc, o with
  | .start, .timeout => some .stop
  | .poll, .timeout => some .stop
  | _, _ => none

/-- The stage at `pc` raised: either the `catch` of lines 161-164 logs and
execution continues after it, or the exception is unhandled. -/
def raise {W : Type} (E : Env W) (s : Proc W) (pc : Pc) (o : Outcome) : Proc W :=
  match caught pc o with
  | some pc2 => { s with log := s.log ++ [LogLine.carla_stopped], status := .running pc2 }
  | none => terminate E s

/-- One stage of `run_pipeline` (lines 110-171) at `pc`, ending with outcome
`o`. The stages `sigaction`, `loop_head` and `finish` make no fallible call:
what they do is determined by the state and `o` is not used. The parameter
`target_traffic_amount` is read from `run_pipeline_args`, which the call at
line 104 has set. After `finish` control is back in `main`, which returns 0
(line 107). -/
def run_pipeline {W : Type} (E : Env W) (s : Proc W) (pc : Pc) (o : Outcome) : Proc W :=
  match pc with
  | .sigaction => { s with sigint_relayed := true, status := .running .build_map }
  | .build_map =>
    let s1 := { s with trace := s.trace ++ [Event.build_map o] }
    match o with
    | .ok => { s1 with status := .running .spawn }
    | _ => raise E s1 .build_map o
  | .spawn =>
    let target := (s.run_pipeline_args.getD (0, 0)).1
    let s1 := { s with trace := s.trace ++ [Event.spawn_traffic target o] }
    let r := E.spawn_traffic s.world target o
    match o with
    | .ok =>
      { s1 with world := r.2, global_actor_list := some r.1, status := .running .construct }
    | _ => raise E { s1 with world := r.2 } .spawn o
  | .construct =>
    let s1 := { s with trace := s.trace ++ [Event.construct o] }
    match o with
    | .ok => { s1 with status := .running .start }
    | _ => raise E s1 .construct o
  | .start =>
    let s1 := { s with trace := s.trace ++ [Event.Start o] }
    match o with
    | .ok => { s1 with log := s.log ++ [LogLine.started], status := .running .loop_head }
    | _ => raise E s1 .start o
  | .loop_head =>
    let s1 := { s with trace := s.trace ++ [Event.loop_check s.quit] }
    if s.quit then { s1 with status := .running .stop }
    else { s1 with status := .running .poll }
  | .poll =>
    let s1 := { s with trace := s.trace ++ [Event.sleep, Event.GetSettings o] }
    match o with
    | .ok => { s1 with status := .running .loop_head }
    | _ => raise E s1 .poll o
  | .stop =>
    let s1 := { s with trace := s.trace ++ [Event.Stop o] }
    match o with
    | .ok => { s1 with status := .running .reclaim }
    | _ => raise E s1 .stop o
  | .reclaim =>
    let s1 := { s with trace := s.trace ++ [Event.destroy_traffic o],
                       world := E.destroy_traffic s.world (s.global_actor_list.getD []) o }
    match o with
    | .ok => { s1 with status := .running .finish }
    | _ => raise E s1 .reclaim o
  | _ =>
    { s with log := s.log ++ [LogLine.stopped_by_user], status := .exited 0 }

/-- One stage of `main` (lines 50-108) at `pc`, ending with outcome `o`, from the
state right after `std::set_terminate(handler)`. Argument processing makes no
external call: what it does is determined by `argv` and `o` is not used there.
Lines 95-99 seed the C random generator, which is not part of this state. The
stage `connect` ends with the call of `run_pipeline` at line 104, whose stages
follow. -/
def main {W : Type} (E : Env W) (s : Proc W) (pc : Pc) (o : Outcome) : Proc W :=
  match pc with
  | .args =>
    if s.argv = ["-h"] then
      { s with log := s.log ++ [LogLine.usage], status := .exited 0 }
    else
      match process_args s.argv ArgState.default with
      | .ok st =>
        { s with cfg := st, log := s.log ++ List.replicate st.warnings LogLine.parse_warning,
                 status := .running .connect }
      | .error st =>
        terminate E { s with cfg := st,
                             log := s.log ++ List.replicate st.warnings LogLine.parse_warning }
  | .connect =>
    let s1 := { s with trace := s.trace ++ [Event.connect s.cfg.host s.cfg.port o] }
    match o with
    | .ok =>
      { s1 with run_pipeline_args :=
                  some (s.cfg.target_traffic_amount, to_uint s.cfg.randomization_seed),
                status := .running .sigaction }
    | _ => raise E s1 .connect o
  | _ => run_pipeline E s pc o

/-- What happens to the process between two observations. -/
inductive Input where
  | sigint
  | fault
  | sup (o : Outcome)
  deriving DecidableEq, Repr

/-- One step of the process. Nothing happens to a process that has ended.
SIGINT runs `got_signal` once `sigaction` has installed it and ends the
process before that; a fault on another thread runs `terminate`. -/
def step {W : Type} (E : Env W) (s : Proc W) (i : Input) : Proc W :=
  match s.status with
  | .running pc =>
    match i with
    | .sigint => if s.sigint_relayed then got_signal s 2 else { s with status := .killed }
    | .fault => terminate E s
    | .sup o => main E s pc o
  | _ => s

/-- The process after a sequence of inputs. -/
def run {W : Type} (E : Env W) (s : Proc W) (ins : List Input) : Proc W :=
  ins.foldl (step E) s

/-! ## Observations on traces -/

/-- The graceful reclamation pass has been started: `destroy_traffic` was called. -/
def graceful_started {W : Type} (s : Proc W) : Bool :=
  s.trace.any fun e => match e with
    | Event.destroy_traffic _ => true
    | _ => false

/-- The emergency reclamation pass has been started: `handler` went past its
guard and logged line 37, which directly precedes its loop. -/
def emergency_started {W : Type} (s : Proc W) : Bool :=
  decide (LogLine.destroying ∈ s.log)

/-! ## A small concrete endpoint, for worked examples -/

/-- Remote world given by the list of destroyed actors. No call raises; `Destroy`
returns failure on odd identities; `spawn_traffic` returns actors `0 .. n-1`; `destroy_traffic`
destroys the whole registry when it returns and nothing when it raises. -/
def demo_env : Env (List ActorId) where
  IsAlive := fun w a => some (!w.contains a)
  Destroy := fun w a => if a % 2 = 0 then (some true, a :: w) else (some false, w)
  spawn_traffic := fun w n _ => ((List.range n).map some, w)
  destroy_traffic := fun w l o => if o = Outcome.ok then l.filterMap id ++ w else w

/-- A process in the polling loop with a published registry of four entries, one
of them null and one already destroyed, and `quit` as given. -/
def demo_proc (quit : Bool) : Proc (List ActorId) :=
  { quit := quit, global_actor_list := some [some 0, none, some 1, some 2],
    sigint_relayed := true, argv := [], cfg := ArgState.default,
    run_pipeline_args := some (3, 0), world := [2], trace := [Event.Start Outcome.ok],
    log := [LogLine.started], status := Status.running Pc.poll }

/-- The inputs other than SIGINT deliveries, in order. -/
def without_sigint (ins : List Input) : List Input :=
  ins.filter fun i => decide (i ≠ Input.sigint)

/-- The inputs that take the main thread of `main` from line 51 to the first
evaluation of the polling loop body: every stage up to `pipeline.Start()`
returns, and the loop condition is evaluated once. -/
def to_running : List Input :=
  List.replicate 8 (Input.sup Outcome.ok)

/-- The event is one of the two actor calls made by `handler`. -/
def is_actor_call : Event → Bool
  | Event.IsAlive _ _ => true
  | Event.Destroy _ _ => true
  | Event.IsAlive_raised _ => true
  | Event.Destroy_raised _ => true
  | _ => false

/-- What holds of a live process at each program point: from `build_map` on,
`got_signal` is installed for SIGINT; from `construct` on, the registry is
published; and `handler` has not gone past its guard. -/
def Established {W : Type} (s : Proc W) : Prop :=
  ∀ pc, s.status = Status.running pc →
    (pc = Pc.args ∨ pc = Pc.connect ∨ pc = Pc.sigaction ∨ s.sigint_relayed = true) ∧
    (pc = Pc.args ∨ pc = Pc.connect ∨ pc = Pc.sigaction ∨ pc = Pc.build_map ∨
      pc = Pc.spawn ∨ s.global_actor_list.isSome = true) ∧
    emergency_started s = false

/-- The inputs that take the main thread of `main` from line 51 to the call of
`pipeline.Start()`: argument processing, connection, `sigaction`, map
construction, spawning and construction of the pipeline all return. -/
def to_start : List Input :=
  List.replicate 6 (Input.sup Outcome.ok)

/-- The calls of `k` full iterations of the polling loop: the loop condition
read `quit` false, one sleep, one liveness query that returned. -/
def rounds : Nat → List Event
  | 0 => []
  | k + 1 => rounds k ++ [Event.loop_check false, Event.sleep, Event.GetSettings Outcome.ok]

/-- The two ways out of the polling loop: the loop condition read `quit` true,
or it read false and the liveness query after the sleep raised
`cc::TimeoutException`. -/
def loop_exit (last : List Event) : Prop :=
  last = [Event.loop_check true] ∨
  last = [Event.loop_check false, Event.sleep, Event.GetSettings Outcome.timeout]

/-- The calls from `pipeline.Start()` up to the point where the main thread
goes on to `pipeline.Stop()`: either `Start` raised `cc::TimeoutException`, or
`Start` returned and was followed by full rounds and an exit of the loop. -/
def session_body (body : List Event) : Prop :=
  body = [Event.Start Outcome.timeout] ∨
  ∃ (k : Nat) (last : List Event), loop_exit last ∧
    body = [Event.Start Outcome.ok] ++ rounds k ++ last

/-- Shape of the calls issued from `pipeline.Start()` on, `base` being the calls
issued before it, at each program point the main thread can be at from then on. -/
def Shape {W : Type} (base : List Event) (s : Proc W) : Prop :=
  match s.status with
  | Status.running Pc.start => s.trace = base
  | Status.running Pc.loop_head =>
    ∃ k, s.trace = base ++ [Event.Start Outcome.ok] ++ rounds k
  | Status.running Pc.poll =>
    ∃ k, s.trace = base ++ [Event.Start Outcome.ok] ++ rounds k ++ [Event.loop_check false]
  | Status.running Pc.stop => ∃ body, session_body body ∧ s.trace = base ++ body
  | Status.running Pc.reclaim =>
    ∃ body, session_body body ∧ s.trace = base ++ body ++ [Event.Stop Outcome.ok]
  | Status.running Pc.finish =>
    ∃ body, session_body body ∧
      s.trace = base ++ body ++ [Event.Stop Outcome.ok, Event.destroy_traffic Outcome.ok]
  | Status.exited 0 =>
    ∃ body, session_body body ∧
      s.trace = base ++ body ++ [Event.Stop Outcome.ok, Event.destroy_traffic Outcome.ok]
  | Status.running _ => False
  | _ => True

/-! ## Signal relay -/

/-- C6: for every signal number and every prior state, `got_signal` leaves `quit`
equal to true and changes nothing else: the registry pointer and contents, the
remote world, the calls issued so far (no worker or remote call is added), the
log, the installed relay and the program point are as before. -/
theorem got_signal_sets_only_quit {W : Type} (s : Proc W) (signum : Int) :
    (got_signal s signum).quit = true ∧
    (got_signal s signum).global_actor_list = s.global_actor_list ∧
    (got_signal s signum).world = s.world ∧
    (got_signal s signum).trace = s.trace ∧
    (got_signal s signum).log = s.log ∧
    (got_signal s signum).status = s.status ∧
    (got_signal s signum).sigint_relayed = s.sigint_relayed ∧
    (got_signal s signum).argv = s.argv ∧
    (got_signal s signum).cfg = s.cfg ∧
    (got_signal s signum).run_pipeline_args = s.run_pipeline_args :=
  ⟨rfl, rfl, rfl, rfl, rfl, rfl, rfl, rfl, rfl, rfl⟩

/-! ## Terminate handler -/

/-- C2: if `quit` is true when `handler` is invoked, it returns to its caller
without calling `exit` and leaves the whole state as it was: no `IsAlive` and no
`Destroy` is issued, nothing is logged, the flag and the registry are unchanged. -/
theorem handler_noop_when_quit {W : Type} (E : Env W) (s : Proc W)
    (hq : s.quit = true) :
    (handler E s).2 = HandlerExit.returned ∧ (handler E s).1 = s ∧
    (handler E s).1.trace = s.trace ∧ (handler E s).1.quit = true := by
  simp [handler, hq]

/-- Witness of C2 on the demo process with the flag set. -/
theorem handler_noop_when_quit_witness :
    (handler demo_env (demo_proc true)).2 = HandlerExit.returned ∧
    (handler demo_env (demo_proc true)).1 = demo_proc true ∧
    (handler demo_env (demo_proc true)).1.trace = (demo_proc true).trace ∧
    (handler demo_env (demo_proc true)).1.quit = true :=
  handler_noop_when_quit demo_env (demo_proc true) rfl

theorem run_cons {W : Type} (E : Env W) (s : Proc W) (i : Input) (ins : List Input) :
    run E s (i :: ins) = run E (step E s i) ins := rfl

theorem run_append {W : Type} (E : Env W) (s : Proc W) (xs ys : List Input) :
    run E s (xs ++ ys) = run E (run E s xs) ys := by
  simp [run, List.foldl_append]

theorem step_ended {W : Type} (E : Env W) (s : Proc W) (i : Input)
    (h : ∀ pc, s.status ≠ Status.running pc) : step E s i = s := by
  unfold step
  cases hs : s.status with
  | running pc => exact absurd hs (h pc)
  | _ => rfl

theorem run_ended {W : Type} (E : Env W) (ins : List Input) :
    ∀ s : Proc W, (∀ pc, s.status ≠ Status.running pc) → run E s ins = s := by
  induction ins with
  | nil => intro s _; rfl
  | cons i rest ih =>
    intro s h
    rw [run_cons, step_ended E s i h]
    exact ih s h

theorem terminate_cases {W : Type} (E : Env W) (s : Proc W) :
    (terminate E s).status = Status.aborted ∨
    (terminate E s).status = Status.exited 1 ∨
    (terminate E s).status = Status.crashed := by
  unfold terminate handler
  by_cases hq : s.quit = true
  · simp [hq]
  · cases hr : s.global_actor_list with
    | none => simp [hq]
    | some actors =>
      by_cases hf : (destroy_loop E actors s.world).2.2 = true <;> simp [hq, hf]

theorem terminate_ended {W : Type} (E : Env W) (s : Proc W) :
    (∀ pc, (terminate E s).status ≠ Status.running pc) ∧
    (terminate E s).status ≠ Status.exited 0 := by
  rcases terminate_cases E s with h | h | h <;> simp [h]

theorem terminate_quit {W : Type} (E : Env W) (s : Proc W) :
    (terminate E s).quit = s.quit := by
  unfold terminate handler
  by_cases hq : s.quit = true
  · simp [hq]
  · cases hr : s.global_actor_list with
    | none => simp [hq]
    | some actors =>
      by_cases hf : (destroy_loop E actors s.world).2.2 = true <;> simp [hq, hf]

theorem raise_quit {W : Type} (E : Env W) (s : Proc W) (pc : Pc) (o : Outcome) :
    (raise E s pc o).quit = s.quit := by
  unfold raise
  cases caught pc o <;> simp [terminate_quit]

theorem main_quit {W : Type} (E : Env W) (s : Proc W) (pc : Pc) (o : Outcome) :
    (main E s pc o).quit = s.quit := by
  cases pc <;> cases o <;> simp only [main, run_pipeline] <;>
    (try split) <;> (try split) <;> simp [raise_quit, terminate_quit]

theorem established_init {W : Type} (w : W) (argv : List String) :
    Established (Proc.init w argv) := by
  intro pc h
  simp [Proc.init] at h
  subst h
  simp [Proc.init, emergency_started]

theorem established_step {W : Type} (E : Env W) (s : Proc W) (i : Input)
    (h : Established s) : Established (step E s i) := by
  unfold step
  cases hs : s.status with
  | running pc =>
    have h0 := h pc hs
    cases i with
    | sigint =>
      by_cases hr : s.sigint_relayed = true
      · intro pc2 h2
        simp [hr, got_signal] at h2
        have h3 := h pc2 h2
        simpa [hr, got_signal, emergency_started] using h3
      · intro pc2 h2
        simp [hr] at h2
    | fault =>
      intro pc2 h2
      exact absurd h2 ((terminate_ended E s).1 pc2)
    | sup o =>
      intro pc2 h2
      have hlog : LogLine.destroying ∉ s.log := by simpa [emergency_started] using h0.2.2
      cases pc <;> cases o <;> simp only [main, run_pipeline, raise, caught] at h2 ⊢ <;>
        first
        | exact absurd h2 ((terminate_ended E _).1 pc2)
        | (split at h2 <;> first
            | (simp at h2; done)
            | (split at h2 <;> first
                | exact absurd h2 ((terminate_ended E _).1 pc2)
                | (simp at h2; subst h2; simp_all [emergency_started]))
            | (simp at h2; subst h2; simp_all [emergency_started]))
        | (simp at h2; done)
        | (simp at h2; subst h2; simp_all [emergency_started])
  | _ => intro pc2 h2; simp [hs] at h2

theorem established_run {W : Type} (E : Env W) (ins : List Input) :
    ∀ s : Proc W, Established s → Established (run E s ins) := by
  induction ins with
  | nil => intro s h; exact h
  | cons i rest ih => intro s h; exact ih _ (established_step E s i h)

/-! ## The graceful path -/

theorem step_sigint_relayed {W : Type} (E : Env W) (s : Proc W) (pc : Pc)
    (hs : s.status = Status.running pc) (hr : s.sigint_relayed = true) :
    step E s Input.sigint = got_signal s 2 := by
  simp [step, hs, hr]

theorem step_sup {W : Type} (E : Env W) (s : Proc W) (pc : Pc) (o : Outcome)
    (hs : s.status = Status.running pc) :
    step E s (Input.sup o) = main E s pc o := by
  simp [step, hs]

theorem graceful_from_finish {W : Type} (E : Env W) (ins : List Input) :
    ∀ s : Proc W, s.status = Status.running Pc.finish → s.sigint_relayed = true →
      without_sigint ins = [Input.sup Outcome.ok] →
      (run E s ins).status = Status.exited 0 ∧ (run E s ins).trace = s.trace ∧
      (run E s ins).log = s.log ++ [LogLine.stopped_by_user] := by
  induction ins with
  | nil => intro s _ _ h; simp [without_sigint] at h
  | cons i rest ih =>
    intro s hs hr h
    cases i with
    | sigint =>
      rw [run_cons, step_sigint_relayed E s _ hs hr]
      exact ih (got_signal s 2) hs hr (by simpa [without_sigint] using h)
    | fault => simp [without_sigint] at h
    | sup o =>
      have hrest : ∀ pc, (main E s Pc.finish o).status ≠ Status.running pc := by
        simp [main, run_pipeline]
      rw [run_cons, step_sup E s _ o hs, run_ended E rest _ hrest]
      simp [main, run_pipeline]

theorem graceful_from_reclaim {W : Type} (E : Env W) (ins : List Input) :
    ∀ s : Proc W, s.status = Status.running Pc.reclaim → s.sigint_relayed = true →
      without_sigint ins = [Input.sup Outcome.ok, Input.sup Outcome.ok] →
      (run E s ins).status = Status.exited 0 ∧
      (run E s ins).trace = s.trace ++ [Event.destroy_traffic Outcome.ok] ∧
      (run E s ins).log = s.log ++ [LogLine.stopped_by_user] := by
  induction ins with
  | nil => intro s _ _ h; simp [without_sigint] at h
  | cons i rest ih =>
    intro s hs hr h
    cases i with
    | sigint =>
      rw [run_cons, step_sigint_relayed E s _ hs hr]
      exact ih (got_signal s 2) hs hr (by simpa [without_sigint] using h)
    | fault => simp [without_sigint] at h
    | sup o =>
      simp [without_sigint] at h
      obtain ⟨ho, h⟩ := h
      subst ho
      rw [run_cons, step_sup E s _ _ hs]
      have := graceful_from_finish E rest (main E s Pc.reclaim Outcome.ok)
        (by simp [main, run_pipeline]) (by simpa [main, run_pipeline] using hr) (by simpa [without_sigint] using h)
      simpa [main, run_pipeline] using this

theorem graceful_from_stop {W : Type} (E : Env W) (ins : List Input) :
    ∀ s : Proc W, s.status = Status.running Pc.stop → s.sigint_relayed = true →
      without_sigint ins = [Input.sup Outcome.ok, Input.sup Outcome.ok, Input.sup Outcome.ok] →
      (run E s ins).status = Status.exited 0 ∧
      (run E s ins).trace =
        s.trace ++ [Event.Stop Outcome.ok, Event.destroy_traffic Outcome.ok] ∧
      (run E s ins).log = s.log ++ [LogLine.stopped_by_user] := by
  induction ins with
  | nil => intro s _ _ h; simp [without_sigint] at h
  | cons i rest ih =>
    intro s hs hr h
    cases i with
    | sigint =>
      rw [run_cons, step_sigint_relayed E s _ hs hr]
      exact ih (got_signal s 2) hs hr (by simpa [without_sigint] using h)
    | fault => simp [without_sigint] at h
    | sup o =>
      simp [without_sigint] at h
      obtain ⟨ho, h⟩ := h
      subst ho
      rw [run_cons, step_sup E s _ _ hs]
      have := graceful_from_reclaim E rest (main E s Pc.stop Outcome.ok)
        (by simp [main, run_pipeline]) (by simpa [main, run_pipeline] using hr) (by simpa [without_sigint] using h)
      simpa [main, run_pipeline] using this

theorem graceful_from_poll_timeout {W : Type} (E : Env W) (ins : List Input) :
    ∀ s : Proc W, s.status = Status.running Pc.poll → s.sigint_relayed = true →
      without_sigint ins = [Input.sup Outcome.timeout, Input.sup Outcome.ok,
        Input.sup Outcome.ok, Input.sup Outcome.ok] →
      (run E s ins).status = Status.exited 0 ∧
      (run E s ins).trace =
        s.trace ++ [Event.sleep, Event.GetSettings Outcome.timeout, Event.Stop Outcome.ok,
          Event.destroy_traffic Outcome.ok] ∧
      (run E s ins).log = s.log ++ [LogLine.carla_stopped, LogLine.stopped_by_user] := by
  induction ins with
  | nil => intro s _ _ h; simp [without_sigint] at h
  | cons i rest ih =>
    intro s hs hr h
    cases i with
    | sigint =>
      rw [run_cons, step_sigint_relayed E s _ hs hr]
      exact ih (got_signal s 2) hs hr (by simpa [without_sigint] using h)
    | fault => simp [without_sigint] at h
    | sup o =>
      simp [without_sigint] at h
      obtain ⟨ho, h⟩ := h
      subst ho
      rw [run_cons, step_sup E s _ _ hs]
      have := graceful_from_stop E rest (main E s Pc.poll Outcome.timeout)
        (by simp [main, run_pipeline, raise, caught]) (by simpa [main, run_pipeline, raise, caught] using hr)
        (by simpa [without_sigint] using h)
      simpa [main, run_pipeline, raise, caught] using this

/-- C4, as the code has it: in every run of `main` that has reached the polling
loop, if the liveness query `world.GetSettings()` raises `cc::TimeoutException`,
the exception is caught in `run_pipeline`: the main thread continues at
`pipeline.Stop()`. If `pipeline.Stop()` and `destroy_traffic` then return and no
thread faults, with SIGINT delivered any number of times in between, `handler`
is not invoked (no `IsAlive`, no `Destroy`, none of its log lines), `Stop` and
then `destroy_traffic` are executed, and the process exits with code 0. -/
theorem connection_failure_is_graceful {W : Type} (E : Env W) (w : W)
    (argv : List String) (before after : List Input)
    (hrunning : (run E (Proc.init w argv) before).status = Status.running Pc.poll)
    (hafter : without_sigint after = [Input.sup Outcome.timeout, Input.sup Outcome.ok,
      Input.sup Outcome.ok, Input.sup Outcome.ok]) :
    (step E (run E (Proc.init w argv) before) (Input.sup Outcome.timeout)).status
      = Status.running Pc.stop ∧
    (run E (Proc.init w argv) (before ++ after)).status = Status.exited 0 ∧
    (run E (Proc.init w argv) (before ++ after)).trace =
      (run E (Proc.init w argv) before).trace ++
        [Event.sleep, Event.GetSettings Outcome.timeout, Event.Stop Outcome.ok,
          Event.destroy_traffic Outcome.ok] ∧
    (run E (Proc.init w argv) (before ++ after)).log =
      (run E (Proc.init w argv) before).log ++
        [LogLine.carla_stopped, LogLine.stopped_by_user] ∧
    emergency_started (run E (Proc.init w argv) (before ++ after)) = false := by
  have hest := established_run E before _ (established_init w argv)
  have h0 := hest Pc.poll hrunning
  have hr : (run E (Proc.init w argv) before).sigint_relayed = true := by
    simpa using h0.1
  have hg := graceful_from_poll_timeout E after _ hrunning hr hafter
  rw [run_append]
  refine ⟨?_, hg.1, hg.2.1, hg.2.2, ?_⟩
  · simp [step, hrunning, main, run_pipeline, raise, caught]
  · have hlog : LogLine.destroying ∉ (run E (Proc.init w argv) before).log := by
      simpa [emergency_started] using h0.2.2
    simp [emergency_started, hg.2.2, hlog]

/-- Witness of the amended C4: the connection is lost at the first poll of a
session with three actors, and SIGINT arrives while `pipeline.Stop()` is
pending. -/
theorem connection_failure_is_graceful_witness :
    (run demo_env (Proc.init [] ["-n", "3"]) to_running).status = Status.running Pc.poll ∧
    (run demo_env (Proc.init [] ["-n", "3"])
      (to_running ++ [Input.sup Outcome.timeout, Input.sigint, Input.sup Outcome.ok,
        Input.sup Outcome.ok, Input.sup Outcome.ok])).status = Status.exited 0 :=
  ⟨by decide,
   (connection_failure_is_graceful demo_env [] ["-n", "3"] to_running
      [Input.sup Outcome.timeout, Input.sigint, Input.sup Outcome.ok,
        Input.sup Outcome.ok, Input.sup Outcome.ok] (by decide) (by decide)).2.1⟩

/-- C4 fails as stated: a session with three actors has reached the polling loop
and the liveness query raises `cc::TimeoutException`, which is caught (the main
thread is at `pipeline.Stop()`). When `destroy_traffic` then raises
`cc::TimeoutException`, `handler` is invoked, goes past its guard and the
process exits with status 1; when `pipeline.Stop()` raises, `destroy_traffic` is
never executed and the process exits with status 1 as well. -/
theorem fault_after_connection_failure_reaches_handler :
    (run demo_env (Proc.init [] ["-n", "3"]) to_running).status = Status.running Pc.poll ∧
    (run demo_env (Proc.init [] ["-n", "3"])
      (to_running ++ [Input.sup Outcome.timeout])).status = Status.running Pc.stop ∧
    (run demo_env (Proc.init [] ["-n", "3"])
      (to_running ++ [Input.sup Outcome.timeout, Input.sup Outcome.ok,
        Input.sup Outcome.timeout])).status = Status.exited 1 ∧
    emergency_started (run demo_env (Proc.init [] ["-n", "3"])
      (to_running ++ [Input.sup Outcome.timeout, Input.sup Outcome.ok,
        Input.sup Outcome.timeout])) = true ∧
    (run demo_env (Proc.init [] ["-n", "3"])
      (to_running ++ [Input.sup Outcome.timeout, Input.sup Outcome.fault])).status
      = Status.exited 1 ∧
    graceful_started (run demo_env (Proc.init [] ["-n", "3"])
      (to_running ++ [Input.sup Outcome.timeout, Input.sup Outcome.fault])) = false ∧
    emergency_started (run demo_env (Proc.init [] ["-n", "3"])
      (to_running ++ [Input.sup Outcome.timeout, Input.sup Outcome.fault])) = true := by
  decide

/-! ## Failure of `pipeline.Start()` -/

theorem destroy_loop_actor_calls {W : Type} (E : Env W) (actors : List Actor) :
    ∀ w : W, (destroy_loop E actors w).2.1.all is_actor_call = true := by
  induction actors with
  | nil => intro w; simp [destroy_loop]
  | cons a rest ih =>
    intro w
    cases a with
    | none => simpa [destroy_loop] using ih w
    | some a =>
      cases h1 : E.IsAlive w a with
      | none => simp [destroy_loop, h1, is_actor_call]
      | some b =>
        cases b with
        | false =>
          have := ih w
          simpa [destroy_loop, h1, is_actor_call] using this
        | true =>
          cases h2 : (E.Destroy w a).1 with
          | none => simp [destroy_loop, h1, h2, is_actor_call]
          | some ok =>
            have := ih (E.Destroy w a).2
            simpa [destroy_loop, h1, h2, is_actor_call] using this

theorem terminate_trace {W : Type} (E : Env W) (s : Proc W) :
    ∃ evs : List Event, (terminate E s).trace = s.trace ++ evs ∧
      evs.all is_actor_call = true := by
  unfold terminate handler
  by_cases hq : s.quit = true
  · exact ⟨[], by simp [hq]⟩
  · cases hr : s.global_actor_list with
    | none => exact ⟨[], by simp [hq]⟩
    | some actors =>
      refine ⟨(destroy_loop E actors s.world).2.1, ?_,
        destroy_loop_actor_calls E actors s.world⟩
      by_cases hf : (destroy_loop E actors s.world).2.2 = true <;> simp [hq, hf]

/-- C5, as the code has it: a failure of `pipeline.Start()` other than
`cc::TimeoutException` is fatal: the process ends in the terminate handler with a
status that is not 0, whatever comes later changes nothing, and after `Start`
only the handler's actor calls are issued (no loop check, no sleep, no liveness
query, no `Stop`, no `destroy_traffic`). A `cc::TimeoutException` raised by
`pipeline.Start()` is caught by the `catch` of lines 161-164: the polling loop
is not entered and the main thread continues at `pipeline.Stop()`. If
`pipeline.Stop()` and `destroy_traffic` then return and no thread faults, the
calls issued from `Start` on are `Start`, `Stop`, `destroy_traffic` and the
process exits with code 0; this holds with no SIGINT and, once `got_signal` is
installed, with SIGINT delivered any number of times in between. -/
theorem start_failure_paths {W : Type} (E : Env W) (s : Proc W)
    (hs : s.status = Status.running Pc.start) :
    ((∀ pc, (step E s (Input.sup Outcome.fault)).status ≠ Status.running pc) ∧
      (step E s (Input.sup Outcome.fault)).status ≠ Status.exited 0 ∧
      (∀ later, run E (step E s (Input.sup Outcome.fault)) later
        = step E s (Input.sup Outcome.fault)) ∧
      ∃ evs : List Event,
        (step E s (Input.sup Outcome.fault)).trace
          = s.trace ++ Event.Start Outcome.fault :: evs ∧
        evs.all is_actor_call = true) ∧
    ((step E s (Input.sup Outcome.timeout)).status = Status.running Pc.stop ∧
      (step E s (Input.sup Outcome.timeout)).trace
        = s.trace ++ [Event.Start Outcome.timeout] ∧
      (run E s [Input.sup Outcome.timeout, Input.sup Outcome.ok, Input.sup Outcome.ok,
        Input.sup Outcome.ok]).status = Status.exited 0 ∧
      (run E s [Input.sup Outcome.timeout, Input.sup Outcome.ok, Input.sup Outcome.ok,
        Input.sup Outcome.ok]).trace
        = s.trace ++ [Event.Start Outcome.timeout, Event.Stop Outcome.ok,
            Event.destroy_traffic Outcome.ok] ∧
      (s.sigint_relayed = true →
        ∀ later : List Input,
          without_sigint later
            = [Input.sup Outcome.ok, Input.sup Outcome.ok, Input.sup Outcome.ok] →
          (run E s (Input.sup Outcome.timeout :: later)).status = Status.exited 0 ∧
          (run E s (Input.sup Outcome.timeout :: later)).trace
            = s.trace ++ [Event.Start Outcome.timeout, Event.Stop Outcome.ok,
                Event.destroy_traffic Outcome.ok])) := by
  have hf : step E s (Input.sup Outcome.fault)
      = terminate E { s with trace := s.trace ++ [Event.Start Outcome.fault] } := by
    simp [step, hs, main, run_pipeline, raise, caught]
  refine ⟨⟨?_, ?_, ?_, ?_⟩, ?_, ?_, ?_, ?_, ?_⟩
  · rw [hf]; exact (terminate_ended E _).1
  · rw [hf]; exact (terminate_ended E _).2
  · intro later
    apply run_ended
    rw [hf]; exact (terminate_ended E _).1
  · obtain ⟨evs, h1, h2⟩ :=
      terminate_trace E { s with trace := s.trace ++ [Event.Start Outcome.fault] }
    exact ⟨evs, by rw [hf, h1]; simp, h2⟩
  · simp [step, hs, main, run_pipeline, raise, caught]
  · simp [step, hs, main, run_pipeline, raise, caught]
  · simp [run, step, hs, main, run_pipeline, raise, caught]
  · simp [run, step, hs, main, run_pipeline, raise, caught]
  · intro hr later hlater
    rw [run_cons, step_sup E s _ _ hs]
    have := graceful_from_stop E later (main E s Pc.start Outcome.timeout)
      (by simp [main, run_pipeline, raise, caught])
      (by simpa [main, run_pipeline, raise, caught] using hr) hlater
    simpa [main, run_pipeline, raise, caught] using (⟨this.1, this.2.1⟩ : _ ∧ _)

/-- Witness of the amended C5 at the demo session, about to call `Start`: a
fault is fatal, a timeout followed by SIGINT and the return of `Stop` and
`destroy_traffic` ends with exit code 0. -/
theorem start_failure_paths_witness :
    (run demo_env (Proc.init [] ["-n", "3"]) to_start).status = Status.running Pc.start ∧
    (step demo_env (run demo_env (Proc.init [] ["-n", "3"]) to_start)
      (Input.sup Outcome.fault)).status ≠ Status.exited 0 ∧
    (step demo_env (run demo_env (Proc.init [] ["-n", "3"]) to_start)
      (Input.sup Outcome.timeout)).status = Status.running Pc.stop ∧
    (run demo_env (run demo_env (Proc.init [] ["-n", "3"]) to_start)
      (Input.sup Outcome.timeout ::
        [Input.sigint, Input.sup Outcome.ok, Input.sup Outcome.ok,
          Input.sup Outcome.ok])).status = Status.exited 0 :=
  ⟨by decide,
   (start_failure_paths demo_env (run demo_env (Proc.init [] ["-n", "3"]) to_start)
      (by decide)).1.2.1,
   (start_failure_paths demo_env (run demo_env (Proc.init [] ["-n", "3"]) to_start)
      (by decide)).2.1,
   ((start_failure_paths demo_env (run demo_env (Proc.init [] ["-n", "3"]) to_start)
      (by decide)).2.2.2.2.2 (by decide)
      [Input.sigint, Input.sup Outcome.ok, Input.sup Outcome.ok, Input.sup Outcome.ok]
      (by decide)).1⟩

/-- C5 fails as stated: `pipeline.Start()` raises `cc::TimeoutException` in a
session with three actors; the run goes on along the graceful path, issues
`Stop` and `destroy_traffic`, and exits with code 0. -/
theorem start_timeout_continues_gracefully :
    (run demo_env (Proc.init [] ["-n", "3"])
      (to_start ++ [Input.sup Outcome.timeout, Input.sup Outcome.ok, Input.sup Outcome.ok,
        Input.sup Outcome.ok])).status = Status.exited 0 ∧
    (run demo_env (Proc.init [] ["-n", "3"])
      (to_start ++ [Input.sup Outcome.timeout, Input.sup Outcome.ok, Input.sup Outcome.ok,
        Input.sup Outcome.ok])).trace =
      [Event.connect "localhost" 2000 Outcome.ok, Event.build_map Outcome.ok,
       Event.spawn_traffic 3 Outcome.ok, Event.construct Outcome.ok,
       Event.Start Outcome.timeout, Event.Stop Outcome.ok,
       Event.destroy_traffic Outcome.ok] := by
  decide

/-! ## The flag when the session stops -/

theorem step_quit_of_not_sigint {W : Type} (E : Env W) (s : Proc W) :
    (∀ o, (step E s (Input.sup o)).quit = s.quit) ∧
    (step E s Input.fault).quit = s.quit := by
  unfold step
  cases hs : s.status <;> simp [main_quit, terminate_quit]

theorem step_quit_mono {W : Type} (E : Env W) (s : Proc W) (i : Input)
    (h : s.quit = true) : (step E s i).quit = true := by
  cases i with
  | sigint =>
    unfold step
    cases hs : s.status with
    | running pc => by_cases hr : s.sigint_relayed = true <;> simp [hr, got_signal, h]
    | _ => simpa using h
  | fault => rw [(step_quit_of_not_sigint E s).2]; exact h
  | sup o => rw [(step_quit_of_not_sigint E s).1 o]; exact h

theorem run_quit_mono {W : Type} (E : Env W) (ins : List Input) :
    ∀ s : Proc W, s.quit = true → (run E s ins).quit = true := by
  induction ins with
  | nil => intro s h; exact h
  | cons i rest ih => intro s h; exact ih _ (step_quit_mono E s i h)

/-- C8, as the code has it: when the main thread leaves the polling loop through
its loop condition (line 155, the operator interrupt) and goes on to
`pipeline.Stop()`, `quit` is true, and it stays true through `Stop`, the
graceful reclamation and whatever else happens afterwards. -/
theorem flag_when_stopping {W : Type} (E : Env W) (s : Proc W) (o : Outcome)
    (later : List Input)
    (hs : s.status = Status.running Pc.loop_head)
    (hstop : (step E s (Input.sup o)).status = Status.running Pc.stop) :
    (step E s (Input.sup o)).quit = true ∧
    (run E (step E s (Input.sup o)) later).quit = true := by
  have hq : s.quit = true := by
    by_cases hq : s.quit = true
    · exact hq
    · simp [step, hs, main, run_pipeline, hq] at hstop
  have h1 : (step E s (Input.sup o)).quit = true := by
    rw [(step_quit_of_not_sigint E s).1 o]; exact hq
  exact ⟨h1, run_quit_mono E later _ h1⟩

/-- Witness of the amended C8: SIGINT arrives after `Start` returned, the loop
condition then sends the main thread to `Stop`. -/
theorem flag_when_stopping_witness :
    (run demo_env (Proc.init [] ["-n", "3"])
      (to_start ++ [Input.sup Outcome.ok, Input.sigint])).status
      = Status.running Pc.loop_head ∧
    (run demo_env (Proc.init [] ["-n", "3"])
      (to_start ++ [Input.sup Outcome.ok, Input.sigint, Input.sup Outcome.ok,
        Input.sup Outcome.ok, Input.sup Outcome.ok])).quit = true :=
  ⟨by decide,
   (flag_when_stopping demo_env
      (run demo_env (Proc.init [] ["-n", "3"])
        (to_start ++ [Input.sup Outcome.ok, Input.sigint]))
      Outcome.ok [Input.sup Outcome.ok, Input.sup Outcome.ok]
      (by decide) (by decide)).2⟩

/-- C8 fails as stated: the liveness query raises `cc::TimeoutException` at the
first poll and no SIGINT is delivered; the main thread is at `pipeline.Stop()`
with `quit` false, and `quit` is still false when `Stop` and `destroy_traffic`
have been executed. -/
theorem flag_false_after_connection_failure :
    (run demo_env (Proc.init [] ["-n", "3"])
      (to_running ++ [Input.sup Outcome.timeout])).status = Status.running Pc.stop ∧
    (run demo_env (Proc.init [] ["-n", "3"])
      (to_running ++ [Input.sup Outcome.timeout])).quit = false ∧
    graceful_started (run demo_env (Proc.init [] ["-n", "3"])
      (to_running ++ [Input.sup Outcome.timeout, Input.sup Outcome.ok,
        Input.sup Outcome.ok])) = true ∧
    (run demo_env (Proc.init [] ["-n", "3"])
      (to_running ++ [Input.sup Outcome.timeout, Input.sup Outcome.ok,
        Input.sup Outcome.ok])).quit = false := by
  decide

/-! ## Shape of the supervisor's trace -/

theorem shape_of_ended {W : Type} (base : List Event) (t : Proc W)
    (h1 : ∀ pc, t.status ≠ Status.running pc) (h2 : t.status ≠ Status.exited 0) :
    Shape base t := by
  unfold Shape
  cases ht : t.status with
  | running pc => exact absurd ht (h1 pc)
  | exited c =>
    cases c with
    | zero => exact absurd ht h2
    | succ n => simp
  | _ => simp

theorem shape_step {W : Type} (E : Env W) (base : List Event) (s : Proc W) (i : Input)
    (h : Shape base s) : Shape base (step E s i) := by
  cases hs : s.status with
  | running pc =>
    cases i with
    | sigint =>
      by_cases hr : s.sigint_relayed = true
      · rw [step_sigint_relayed E s pc hs hr]
        simpa [Shape, got_signal] using h
      · have : step E s Input.sigint = { s with status := Status.killed } := by
          simp [step, hs, hr]
        rw [this]; simp [Shape]
    | fault =>
      have : step E s Input.fault = terminate E s := by simp [step, hs]
      rw [this]
      exact shape_of_ended base _ (terminate_ended E s).1 (terminate_ended E s).2
    | sup o =>
      rw [step_sup E s pc o hs]
      have hterm : ∀ t : Proc W, Shape base (terminate E t) := fun t =>
        shape_of_ended base _ (terminate_ended E t).1 (terminate_ended E t).2
      cases pc with
      | start =>
        simp only [Shape, hs] at h
        cases o with
        | ok =>
          simp only [main, run_pipeline, Shape]
          exact ⟨0, by simp [h, rounds]⟩
        | timeout =>
          simp only [main, run_pipeline, raise, caught, Shape]
          exact ⟨[Event.Start Outcome.timeout], Or.inl rfl, by simp [h]⟩
        | fault => simp only [main, run_pipeline, raise, caught]; exact hterm _
      | loop_head =>
        simp only [Shape, hs] at h
        obtain ⟨k, hk⟩ := h
        by_cases hq : s.quit = true
        · simp only [main, run_pipeline, hq, Shape, if_true]
          exact ⟨[Event.Start Outcome.ok] ++ rounds k ++ [Event.loop_check true],
            Or.inr ⟨k, [Event.loop_check true], Or.inl rfl, rfl⟩, by simp [hk]⟩
        · simp only [main, run_pipeline, hq, Shape]
          simp at hq
          exact ⟨k, by simp [hk, hq]⟩
      | poll =>
        simp only [Shape, hs] at h
        obtain ⟨k, hk⟩ := h
        cases o with
        | ok =>
          simp only [main, run_pipeline, Shape]
          exact ⟨k + 1, by simp [hk, rounds]⟩
        | timeout =>
          simp only [main, run_pipeline, raise, caught, Shape]
          exact ⟨[Event.Start Outcome.ok] ++ rounds k ++
              [Event.loop_check false, Event.sleep, Event.GetSettings Outcome.timeout],
            Or.inr ⟨k, _, Or.inr rfl, rfl⟩, by simp [hk]⟩
        | fault => simp only [main, run_pipeline, raise, caught]; exact hterm _
      | stop =>
        simp only [Shape, hs] at h
        obtain ⟨body, hb, hk⟩ := h
        cases o with
        | ok =>
          simp only [main, run_pipeline, Shape]
          exact ⟨body, hb, by simp [hk]⟩
        | timeout => simp only [main, run_pipeline, raise, caught]; exact hterm _
        | fault => simp only [main, run_pipeline, raise, caught]; exact hterm _
      | reclaim =>
        simp only [Shape, hs] at h
        obtain ⟨body, hb, hk⟩ := h
        cases o with
        | ok =>
          simp only [main, run_pipeline, Shape]
          exact ⟨body, hb, by simp [hk]⟩
        | timeout => simp only [main, run_pipeline, raise, caught]; exact hterm _
        | fault => simp only [main, run_pipeline, raise, caught]; exact hterm _
      | finish =>
        simp only [Shape, hs] at h
        obtain ⟨body, hb, hk⟩ := h
        simp only [main, run_pipeline, Shape]
        exact ⟨body, hb, hk⟩
      | args => simp [Shape, hs] at h
      | connect => simp [Shape, hs] at h
      | sigaction => simp [Shape, hs] at h
      | build_map => simp [Shape, hs] at h
      | spawn => simp [Shape, hs] at h
      | construct => simp [Shape, hs] at h
  | exited c =>
    rw [step_ended E s i (by simp [hs])]; exact h
  | aborted =>
    rw [step_ended E s i (by simp [hs])]; exact h
  | crashed =>
    rw [step_ended E s i (by simp [hs])]; exact h
  | killed =>
    rw [step_ended E s i (by simp [hs])]; exact h

theorem shape_run {W : Type} (E : Env W) (base : List Event) (ins : List Input) :
    ∀ s : Proc W, Shape base s → Shape base (run E s ins) := by
  induction ins with
  | nil => intro s h; exact h
  | cons i rest ih => intro s h; exact ih _ (shape_step E base s i h)

/-- C9, as the code has it: every run from the call of `pipeline.Start()` that
ends with `main` returning 0 (no unhandled fault) issues, from `Start` on, one
of two sequences. Either `Start` returns; then come some number of full rounds,
each one the loop condition reading `quit` false, one sleep and one liveness
query that returns; then the exit of the loop, which is the loop condition
reading `quit` true or a last round whose liveness query raises
`cc::TimeoutException`; then `Stop`; then `destroy_traffic`. Or `Start` raises
`cc::TimeoutException` and is directly followed by `Stop` and `destroy_traffic`.
In both, `destroy_traffic` directly follows the return of `Stop`. -/
theorem supervisor_trace_shape {W : Type} (E : Env W) (s : Proc W) (ins : List Input)
    (hs : s.status = Status.running Pc.start)
    (hend : (run E s ins).status = Status.exited 0) :
    (∃ (k : Nat) (last : List Event),
      (last = [Event.loop_check true] ∨
        last = [Event.loop_check false, Event.sleep, Event.GetSettings Outcome.timeout]) ∧
      (run E s ins).trace =
        s.trace ++ [Event.Start Outcome.ok] ++ rounds k ++ last ++
          [Event.Stop Outcome.ok, Event.destroy_traffic Outcome.ok]) ∨
    (run E s ins).trace =
      s.trace ++ [Event.Start Outcome.timeout, Event.Stop Outcome.ok,
        Event.destroy_traffic Outcome.ok] := by
  have h0 : Shape s.trace s := by simp [Shape, hs]
  have h1 := shape_run E _ ins _ h0
  simp only [Shape, hend] at h1
  obtain ⟨body, hb, ht⟩ := h1
  rcases hb with hb | ⟨k, last, hl, hb⟩
  · right
    rw [ht, hb]; simp
  · left
    exact ⟨k, last, hl, by rw [ht, hb]; simp⟩

/-- Witness of the amended C9: one full round, then SIGINT, then the loop
condition reads `quit` true. -/
theorem supervisor_trace_shape_witness :
    (run demo_env (Proc.init [] ["-n", "3"]) to_start).status = Status.running Pc.start ∧
    (run demo_env (run demo_env (Proc.init [] ["-n", "3"]) to_start)
      [Input.sup Outcome.ok, Input.sup Outcome.ok, Input.sup Outcome.ok, Input.sigint,
        Input.sup Outcome.ok, Input.sup Outcome.ok, Input.sup Outcome.ok,
        Input.sup Outcome.ok]).trace =
      (run demo_env (Proc.init [] ["-n", "3"]) to_start).trace ++
        [Event.Start Outcome.ok] ++ rounds 1 ++ [Event.loop_check true] ++
        [Event.Stop Outcome.ok, Event.destroy_traffic Outcome.ok] ∧
    ((∃ (k : Nat) (last : List Event),
      (last = [Event.loop_check true] ∨
        last = [Event.loop_check false, Event.sleep, Event.GetSettings Outcome.timeout]) ∧
      (run demo_env (run demo_env (Proc.init [] ["-n", "3"]) to_start)
        [Input.sup Outcome.ok, Input.sup Outcome.ok, Input.sup Outcome.ok, Input.sigint,
          Input.sup Outcome.ok, Input.sup Outcome.ok, Input.sup Outcome.ok,
          Input.sup Outcome.ok]).trace =
        (run demo_env (Proc.init [] ["-n", "3"]) to_start).trace ++
          [Event.Start Outcome.ok] ++ rounds k ++ last ++
          [Event.Stop Outcome.ok, Event.destroy_traffic Outcome.ok]) ∨
    (run demo_env (run demo_env (Proc.init [] ["-n", "3"]) to_start)
      [Input.sup Outcome.ok, Input.sup Outcome.ok, Input.sup Outcome.ok, Input.sigint,
        Input.sup Outcome.ok, Input.sup Outcome.ok, Input.sup Outcome.ok,
        Input.sup Outcome.ok]).trace =
      (run demo_env (Proc.init [] ["-n", "3"]) to_start).trace ++
        [Event.Start Outcome.timeout, Event.Stop Outcome.ok,
          Event.destroy_traffic Outcome.ok]) :=
  ⟨by decide, by decide,
   supervisor_trace_shape demo_env (run demo_env (Proc.init [] ["-n", "3"]) to_start) _
     (by decide) (by decide)⟩

/-- C9 fails as stated: `pipeline.Start()` raises `cc::TimeoutException`, no
unhandled fault occurs and the process exits with code 0, and `Stop` and
`destroy_traffic` are issued although the loop condition was never read and no
liveness query was made. -/
theorem stop_without_termination_condition :
    (run demo_env (Proc.init [] [])
      (to_start ++ [Input.sup Outcome.timeout, Input.sup Outcome.ok, Input.sup Outcome.ok,
        Input.sup Outcome.ok])).status = Status.exited 0 ∧
    emergency_started (run demo_env (Proc.init [] [])
      (to_start ++ [Input.sup Outcome.timeout, Input.sup Outcome.ok, Input.sup Outcome.ok,
        Input.sup Outcome.ok])) = false ∧
    (run demo_env (Proc.init [] [])
      (to_start ++ [Input.sup Outcome.timeout, Input.sup Outcome.ok, Input.sup Outcome.ok,
        Input.sup Outcome.ok])).trace =
      [Event.connect "localhost" 2000 Outcome.ok, Event.build_map Outcome.ok,
       Event.spawn_traffic 0 Outcome.ok, Event.construct Outcome.ok,
       Event.Start Outcome.timeout, Event.Stop Outcome.ok,
       Event.destroy_traffic Outcome.ok] ∧
    Event.loop_check true ∉ (run demo_env (Proc.init [] [])
      (to_start ++ [Input.sup Outcome.timeout, Input.sup Outcome.ok, Input.sup Outcome.ok,
        Input.sup Outcome.ok])).trace ∧
    Event.GetSettings Outcome.timeout ∉ (run demo_env (Proc.init [] [])
      (to_start ++ [Input.sup Outcome.timeout, Input.sup Outcome.ok, Input.sup Outcome.ok,
        Input.sup Outcome.ok])).trace := by
  decide

/-! ## Reclamation passes -/

theorem step_emergency_of_quit {W : Type} (E : Env W) (s : Proc W) (i : Input)
    (hq : s.quit = true) :
    emergency_started (step E s i) = emergency_started s := by
  have hterm : ∀ t : Proc W, t.quit = true →
      emergency_started (terminate E t) = emergency_started t := by
    intro t ht
    simp [terminate, handler, ht, emergency_started]
  unfold step
  cases hs : s.status with
  | running pc =>
    cases i with
    | sigint => by_cases hr : s.sigint_relayed = true <;> simp [hr, got_signal, emergency_started]
    | fault => exact hterm s hq
    | sup o =>
      cases pc <;> cases o <;> simp only [main, run_pipeline, raise, caught] <;>
        first
        | (rw [hterm _ (by simpa using hq)]; simp [emergency_started])
        | (simp [emergency_started]; done)
        | (split <;> first
            | (simp [emergency_started]; done)
            | (split <;> first
                | (simp [emergency_started]; done)
                | (rw [hterm _ (by simpa using hq)]; simp [emergency_started])))
  | _ => rfl

/-- A reclamation guarantee that does hold: once `quit` is true, `handler`
never goes past its guard, so no emergency pass is started from then on. -/
theorem no_emergency_pass_once_flag_set {W : Type} (E : Env W) (ins : List Input) :
    ∀ s : Proc W, s.quit = true →
      emergency_started (run E s ins) = emergency_started s := by
  induction ins with
  | nil => intro s _; rfl
  | cons i rest ih =>
    intro s hq
    rw [run_cons, ih _ (step_quit_mono E s i hq), step_emergency_of_quit E s i hq]

/-- C1 at its failing input: in a session with two actors the liveness query
raises `cc::TimeoutException` at the first poll, `pipeline.Stop()` returns and
`destroy_traffic` raises `cc::TimeoutException`. `quit` is still false, so the
terminate handler goes past its guard: the graceful pass (`destroy_traffic`) and
the emergency pass (`IsAlive`/`Destroy` on every entry) have both been started
when the process exits with status 1. The same holds when `destroy_traffic`
returns and another thread faults before `main` returns. -/
theorem both_reclamation_passes_started :
    graceful_started (run demo_env (Proc.init [] ["-n", "2"])
      (to_running ++ [Input.sup Outcome.timeout, Input.sup Outcome.ok,
        Input.sup Outcome.timeout])) = true ∧
    emergency_started (run demo_env (Proc.init [] ["-n", "2"])
      (to_running ++ [Input.sup Outcome.timeout, Input.sup Outcome.ok,
        Input.sup Outcome.timeout])) = true ∧
    (run demo_env (Proc.init [] ["-n", "2"])
      (to_running ++ [Input.sup Outcome.timeout, Input.sup Outcome.ok,
        Input.sup Outcome.timeout])).quit = false ∧
    (run demo_env (Proc.init [] ["-n", "2"])
      (to_running ++ [Input.sup Outcome.timeout, Input.sup Outcome.ok,
        Input.sup Outcome.timeout])).status = Status.exited 1 ∧
    (run demo_env (Proc.init [] ["-n", "2"])
      (to_running ++ [Input.sup Outcome.timeout, Input.sup Outcome.ok,
        Input.sup Outcome.timeout])).trace =
      [Event.connect "localhost" 2000 Outcome.ok, Event.build_map Outcome.ok,
       Event.spawn_traffic 2 Outcome.ok, Event.construct Outcome.ok,
       Event.Start Outcome.ok, Event.loop_check false, Event.sleep,
       Event.GetSettings Outcome.timeout, Event.Stop Outcome.ok,
       Event.destroy_traffic Outcome.timeout,
       Event.IsAlive 0 true, Event.Destroy 0 true,
       Event.IsAlive 1 true, Event.Destroy 1 false] ∧
    graceful_started (run demo_env (Proc.init [] ["-n", "2"])
      (to_running ++ [Input.sup Outcome.timeout, Input.sup Outcome.ok,
        Input.sup Outcome.ok, Input.fault])) = true ∧
    emergency_started (run demo_env (Proc.init [] ["-n", "2"])
      (to_running ++ [Input.sup Outcome.timeout, Input.sup Outcome.ok,
        Input.sup Outcome.ok, Input.fault])) = true ∧
    (run demo_env (Proc.init [] ["-n", "2"])
      (to_running ++ [Input.sup Outcome.timeout, Input.sup Outcome.ok,
        Input.sup Outcome.ok, Input.fault])).status = Status.exited 1 := by
  decide

/-! ## Publication of the registry -/

/-- C10 at its failing input: `main` is started without flags and the connection
set-up (`cc::Client`, `GetWorld`) raises `cc::TimeoutException`. The exception
leaves `main`, the terminate handler runs with `quit` false and
`global_actor_list` still null, and reads through it. The same happens for a
fault in map construction, in spawning, and in argument processing (a trailing
`--host`). -/
theorem handler_reads_unpublished_registry :
    (run demo_env (Proc.init [] []) [Input.sup Outcome.ok]).status
      = Status.running Pc.connect ∧
    (run demo_env (Proc.init [] []) [Input.sup Outcome.ok]).global_actor_list = none ∧
    (run demo_env (Proc.init [] []) [Input.sup Outcome.ok]).quit = false ∧
    (handler demo_env (run demo_env (Proc.init [] []) [Input.sup Outcome.ok])).2
      = HandlerExit.null_registry ∧
    (run demo_env (Proc.init [] [])
      [Input.sup Outcome.ok, Input.sup Outcome.timeout]).status = Status.crashed ∧
    (run demo_env (Proc.init [] [])
      [Input.sup Outcome.ok, Input.sup Outcome.ok, Input.sup Outcome.ok,
        Input.sup Outcome.fault]).status = Status.crashed ∧
    (run demo_env (Proc.init [] [])
      [Input.sup Outcome.ok, Input.sup Outcome.ok, Input.sup Outcome.ok,
        Input.sup Outcome.ok, Input.sup Outcome.fault]).status = Status.crashed ∧
    (run demo_env (Proc.init [] ["--host"]) [Input.sup Outcome.ok]).status
      = Status.crashed := by
  decide

/-! ## Argument processing -/

theorem process_args_keeps_target : ∀ (n : Nat) (l : List String) (st : ArgState),
    l.length ≤ n →
    (∀ pre v post, l = pre ++ "-n" :: v :: post → stoi v = none) →
    (∀ pre, l ≠ pre ++ ["--host"]) →
    ∃ st2, process_args l st = Except.ok st2 ∧
      st2.target_traffic_amount = st.target_traffic_amount := by
  intro n
  induction n with
  | zero =>
    intro l st hlen _ _
    have : l = [] := List.length_eq_zero.mp (Nat.le_zero.mp hlen)
    subst this
    exact ⟨st, by simp [process_args], rfl⟩
  | succ n ih =>
    intro l st hlen hbad hhost
    cases l with
    | nil => exact ⟨st, by simp [process_args], rfl⟩
    | cons a rest =>
      have hlen1 : rest.length ≤ n := by simpa using hlen
      have hbad1 : ∀ pre v post, rest = pre ++ "-n" :: v :: post → stoi v = none :=
        fun pre v post h => hbad (a :: pre) v post (by simp [h])
      have hhost1 : ∀ pre, rest ≠ pre ++ ["--host"] :=
        fun pre h => hhost (a :: pre) (by simp [h])
      cases rest with
      | nil =>
        by_cases h1 : a = "-n"
        · exact ⟨{ st with warnings := st.warnings + 1 }, by simp [process_args, h1], rfl⟩
        by_cases h2 : a = "-s"
        · exact ⟨{ st with warnings := st.warnings + 1 }, by simp [process_args, h2], rfl⟩
        by_cases h3 : a = "-p"
        · exact ⟨{ st with warnings := st.warnings + 1 }, by simp [process_args, h3], rfl⟩
        by_cases h4 : a = "--host"
        · exact absurd (by simp [h4]) (hhost [])
        · exact ⟨st, by simp [process_args, h1, h2, h3, h4], rfl⟩
      | cons v rest2 =>
        have hlen2 : rest2.length ≤ n := by
          simp at hlen1; omega
        have hbad2 : ∀ pre v2 post, rest2 = pre ++ "-n" :: v2 :: post → stoi v2 = none :=
          fun pre v2 post h => hbad1 (v :: pre) v2 post (by simp [h])
        have hhost2 : ∀ pre, rest2 ≠ pre ++ ["--host"] :=
          fun pre h => hhost1 (v :: pre) (by simp [h])
        by_cases h1 : a = "-n"
        · have hv : stoi v = none := hbad [] v rest2 (by simp [h1])
          obtain ⟨st2, e, t⟩ := ih rest2 { st with warnings := st.warnings + 1 } hlen2 hbad2 hhost2
          exact ⟨st2, by simp [process_args, h1, hv, e], t⟩
        by_cases h2 : a = "-s"
        · cases hv : stoi v with
          | none =>
            obtain ⟨st2, e, t⟩ :=
              ih rest2 { st with warnings := st.warnings + 1 } hlen2 hbad2 hhost2
            exact ⟨st2, by simp [process_args, h2, hv, e], t⟩
          | some m =>
            obtain ⟨st2, e, t⟩ :=
              ih rest2 { st with randomization_seed := m } hlen2 hbad2 hhost2
            exact ⟨st2, by simp [process_args, h2, hv, e], t⟩
        by_cases h3 : a = "-p"
        · cases hv : stoi v with
          | none =>
            obtain ⟨st2, e, t⟩ :=
              ih rest2 { st with warnings := st.warnings + 1 } hlen2 hbad2 hhost2
            exact ⟨st2, by simp [process_args, h3, hv, e], t⟩
          | some m =>
            obtain ⟨st2, e, t⟩ := ih rest2 { st with port := to_uint m } hlen2 hbad2 hhost2
            exact ⟨st2, by simp [process_args, h3, hv, e], t⟩
        by_cases h4 : a = "--host"
        · obtain ⟨st2, e, t⟩ := ih rest2 { st with host := v } hlen2 hbad2 hhost2
          exact ⟨st2, by simp [process_args, h4, e], t⟩
        · obtain ⟨st2, e, t⟩ := ih (v :: rest2) st hlen1 hbad1 hhost1
          exact ⟨st2, by simp [process_args, h1, h2, h3, h4, e], t⟩

/-- C7, as the code has it: for every argument list that contains `-n`, in which
every value that follows a `-n` cannot be parsed by `std::stoi`, and which does
not end in `--host`, argument processing does not abort, `target_traffic_amount`
keeps its default 0, and once the connection is set up `run_pipeline` is called
with count 0 (the main thread is at its first statement). -/
theorem unparseable_count_falls_back {W : Type} (E : Env W) (w : W)
    (argv : List String) (hn : "-n" ∈ argv)
    (hbad : ∀ pre v post, argv = pre ++ "-n" :: v :: post → stoi v = none)
    (hhost : ∀ pre, argv ≠ pre ++ ["--host"]) :
    ∃ st : ArgState,
      process_args argv ArgState.default = Except.ok st ∧
      st.target_traffic_amount = 0 ∧
      (run E (Proc.init w argv) [Input.sup Outcome.ok]).status
        = Status.running Pc.connect ∧
      (run E (Proc.init w argv) [Input.sup Outcome.ok, Input.sup Outcome.ok]).status
        = Status.running Pc.sigaction ∧
      (run E (Proc.init w argv)
        [Input.sup Outcome.ok, Input.sup Outcome.ok]).run_pipeline_args
        = some (0, to_uint st.randomization_seed) := by
  obtain ⟨st, e, t⟩ :=
    process_args_keeps_target argv.length argv ArgState.default (Nat.le_refl _) hbad hhost
  have hh : argv ≠ ["-h"] := by
    intro h
    rw [h] at hn
    simp at hn
  have t0 : st.target_traffic_amount = 0 := by simpa [ArgState.default] using t
  refine ⟨st, e, t0, ?_, ?_, ?_⟩
  · simp [run, step, Proc.init, main, run_pipeline, hh, e]
  · simp [run, step, Proc.init, main, run_pipeline, hh, e]
  · simp [run, step, Proc.init, main, run_pipeline, hh, e, t0]

/-- Witness of the amended C7 on `-n abc`. -/
theorem unparseable_count_falls_back_witness :
    stoi "abc" = none ∧
    ∃ st : ArgState,
      process_args ["-n", "abc"] ArgState.default = Except.ok st ∧
      st.target_traffic_amount = 0 ∧
      (run demo_env (Proc.init [] ["-n", "abc"]) [Input.sup Outcome.ok]).status
        = Status.running Pc.connect ∧
      (run demo_env (Proc.init [] ["-n", "abc"])
        [Input.sup Outcome.ok, Input.sup Outcome.ok]).status
        = Status.running Pc.sigaction ∧
      (run demo_env (Proc.init [] ["-n", "abc"])
        [Input.sup Outcome.ok, Input.sup Outcome.ok]).run_pipeline_args
        = some (0, to_uint st.randomization_seed) :=
  ⟨by decide,
   unparseable_count_falls_back demo_env [] ["-n", "abc"] (by decide)
     (by
       intro pre v post h
       cases pre with
       | nil =>
         simp at h
         rw [← h.1]
         decide
       | cons a pre2 =>
         cases pre2 with
         | nil => simp at h
         | cons b pre3 =>
           have := congrArg List.length h
           simp at this)
     (by
       intro pre h
       cases pre with
       | nil => simp at h
       | cons a pre2 =>
         cases pre2 with
         | nil => simp at h
         | cons b pre3 =>
           have := congrArg List.length h
           simp at this)⟩

/-- C7 fails as stated: in `-n abc -n 5` the value after the first `-n` cannot be
parsed, yet `target_traffic_amount` ends as 5 and `run_pipeline` is called with
count 5. -/
theorem later_count_flag_overrides_default :
    stoi "abc" = none ∧
    process_args ["-n", "abc", "-n", "5"] ArgState.default
      = Except.ok { randomization_seed := -1, target_traffic_amount := 5,
                    host := "localhost", port := 2000, warnings := 1 } ∧
    (run demo_env (Proc.init [] ["-n", "abc", "-n", "5"])
      [Input.sup Outcome.ok, Input.sup Outcome.ok]).run_pipeline_args
      = some (5, 4294967295) :=
  ⟨by decide, rfl, by decide⟩

end TrafficManager
